import Mathlib

/-!
Verification of the external-tool lifecycle manager and scan invokers of the
pd-grype-ext extension: a shallow embedding of `AnchoreCliService` (releases,
asset naming, install, init/version probe), `SyftService.analyse`,
`GrypeService.analyse` and the grype output schema, together with theorems
about caching, atomic writes, sanitization, release filtering and error gates.
JavaScript string primitives are re-modelled over `List Char` so that every
definition evaluates by kernel reduction.
-/

namespace PdGrypeExt

/-- JS `String.prototype.startsWith`, modelled on the character list. -/
def jsStartsWith (s p : String) : Bool := p.data.isPrefixOf s.data

/-- JS `String.prototype.endsWith`, modelled on the character list. -/
def jsEndsWith (s p : String) : Bool := p.data.isSuffixOf s.data

/-- JS `String.prototype.substring(n)` (also `slice(n)`): the characters of
`s` from index `n` on. -/
def jsSubstringFrom (s : String) (n : Nat) : String := ⟨s.data.drop n⟩

/-- JS `String.prototype.toLowerCase` on the ASCII fragment used here. -/
def jsToLower (s : String) : String := ⟨s.data.map Char.toLower⟩

/-- Whitespace characters recognised by the model of JS regular expressions. -/
def isWsChar (c : Char) : Bool := c = ' ' || c = '\t' || c = '\n' || c = '\r'

/-- JS `String.prototype.trim`. -/
def jsTrim (s : String) : String :=
  ⟨((s.data.dropWhile isWsChar).reverse.dropWhile isWsChar).reverse⟩

/-- JS `text.split(/\s+/)` for an already-trimmed `text`: on the empty string
the JS call returns a single empty field; otherwise the whitespace runs of a
trimmed string delimit exactly the non-empty fields. -/
def wsTokens (s : String) : List String :=
  if s = "" then [""]
  else ((s.data.splitOnP isWsChar).map String.mk).filter (fun t => t ≠ "")

/-- Version parsing of `AnchoreCliService.getInstalledVersion`
(part_001 lines 250-257): trim the stdout, split on whitespace, take the
second field, and fall back to the whole trimmed text when there is none. -/
def parseVersionOutput (stdout : String) : String :=
  let text := jsTrim stdout
  let parts := wsTokens text
  (parts.get? 1).getD text

/-- The `node:path` `join` on already-normalised segments. -/
def pathJoin (parts : List String) : String := String.intercalate "/" parts

/-- Split a string on a separator character, JS `split(sep)`. -/
def splitOnChar (sep : Char) (s : String) : List String :=
  (s.data.splitOnP (fun c => c = sep)).map String.mk

/-- The `node:path` `dirname` for normalised relative paths. -/
def dirname (p : String) : String :=
  let parts := splitOnChar '/' p
  if parts.length ≤ 1 then "." else String.intercalate "/" parts.dropLast

/-- The `node:path` `basename` for normalised paths. -/
def basename (p : String) : String := (splitOnChar '/' p).getLastD p

/-- JSON values: the contents of scan artifacts and parsed tool output. -/
inductive Json where
  | str : String → Json
  | num : Int → Json
  | bool : Bool → Json
  | null : Json
  | arr : List Json → Json
  | obj : List (String × Json) → Json

/-- The filesystem fragment the services touch: a finite map from paths to
JSON contents. Directories are implicit, so `mkdir recursive` is a no-op. -/
structure FS where
  files : List (String × Json)

/-- Look up a file's content, the model of `readFile` + `JSON.parse`. -/
def FS.read (fs : FS) (p : String) : Option Json :=
  (fs.files.find? (fun e => e.1 == p)).map (fun e => e.2)

/-- The model of `existsSync`. -/
def FS.existsSync (fs : FS) (p : String) : Bool := (fs.read p).isSome

/-- The model of `writeFile`: create or overwrite. -/
def FS.write (fs : FS) (p : String) (c : Json) : FS :=
  ⟨fs.files.filter (fun e => e.1 != p) ++ [(p, c)]⟩

/-- Delete a path from the filesystem. -/
def FS.remove (fs : FS) (p : String) : FS := ⟨fs.files.filter (fun e => e.1 != p)⟩

/-- The model of `rename(src, dst)`; in the modelled flows the source always
exists, a missing source leaves the filesystem unchanged. -/
def FS.rename (fs : FS) (src dst : String) : FS :=
  match fs.read src with
  | none => fs
  | some c => (fs.remove src).write dst c

/-- One invocation of the host process executor
(`process.exec(binary, args, { env })`). -/
structure ExecCall where
  binary : String
  args : List String
  env : List (String × String)

/-- Observable side effects of one service call: executor invocations, direct
file writes (by whatever mechanism, including the external binary writing its
named output file), and renames, each in order. -/
structure Trace where
  execs : List ExecCall
  writes : List (String × Json)
  renames : List (String × String)

/-- The empty trace. -/
def Trace.empty : Trace := ⟨[], [], []⟩

/-- JS truthiness of an optional string: `undefined` and `""` are falsy. -/
def truthy : Option String → Bool
  | none => false
  | some s => s ≠ ""

/-- `SyftService.sanitizeImageId` (syft-service.ts lines 225-230): strip a
leading "sha256:" (7 characters) when present. -/
def sanitizeImageId (imageId : String) : String :=
  if jsStartsWith imageId "sha256:" then jsSubstringFrom imageId 7 else imageId

/-- The fields of a `ProviderContainerConnection` the services read:
`providerId`, `connection.type` and `connection.name`. -/
structure ProviderContainerConnection where
  providerId : String
  connectionType : String
  connectionName : String

/-- Result entry of `PodmanService.findPodmanConnection`. -/
structure PodmanConnection where
  URI : String
  Identity : Option String

/-- Ambient state of one `SyftService.analyse` call: the cli tool registration
(JS truthiness checked), the resolved podman connection, the host platform,
and the behaviour of the external binary (`execOk` tells whether the
invocation succeeds, `scanContent` is what it writes to its output target). -/
structure SyftEnv where
  storagePath : String
  version : Option String
  path : Option String
  podmanConn : Option PodmanConnection
  isLinux : Bool
  execOk : Bool
  scanContent : Json

/-- Destination path computed by `SyftService.analyse`
(syft-service.ts lines 244-249): note the `.jsonpow` suffix in the source. -/
def syftDestination (storagePath : String) (conn : ProviderContainerConnection)
    (imageId : String) : String :=
  pathJoin [storagePath, conn.providerId, conn.connectionName,
    sanitizeImageId imageId ++ ".jsonpow"]

/-- The cache-miss tail of `SyftService.analyse`: exec the binary with
`--output=json=<tmp>` (the binary writes `tmp`), then rename tmp onto the
destination (syft-service.ts lines 281-290). -/
def syftRunScan (e : SyftEnv) (binary imageId destination : String)
    (env : List (String × String)) (fs : FS) :
    Except String String × FS × Trace :=
  let tmp := destination ++ ".tmp"
  let call : ExecCall :=
    ⟨binary, ["--from=podman", imageId, "--output=json=" ++ tmp], env⟩
  if e.execOk then
    let fs1 := (fs.write tmp e.scanContent).rename tmp destination
    (Except.ok destination, fs1,
     ⟨[call], [(tmp, e.scanContent)], [(tmp, destination)]⟩)
  else
    (Except.error "exec failed", fs, ⟨[call], [], []⟩)

/-- `SyftService.analyse` (syft-service.ts lines 232-293): installed gate,
podman-type gate, destination computation, cache gate, remote-connection
resolution, then the scan. -/
def syftAnalyse (e : SyftEnv) (conn : ProviderContainerConnection)
    (imageId : String) (fs : FS) : Except String String × FS × Trace :=
  if !(truthy e.version && truthy e.path) then
    (Except.error "cannot analyse image without syft binary installed", fs, Trace.empty)
  else
    let binary := e.path.getD ""
    if conn.connectionType ≠ "podman" then
      (Except.error "extension only supported podman connection", fs, Trace.empty)
    else
      let destination := syftDestination e.storagePath conn imageId
      if fs.existsSync destination then
        (Except.ok destination, fs, Trace.empty)
      else
        match e.podmanConn with
        | none =>
          if !e.isLinux then
            (Except.error "podman connection not found", fs, Trace.empty)
          else
            syftRunScan e binary imageId destination [] fs
        | some c =>
          if !(jsStartsWith c.URI "ssh:") then
            (Except.error "do not support non-SSH connections", fs, Trace.empty)
          else
            let env := ("CONTAINER_HOST", c.URI) ::
              (match c.Identity with
               | some i => [("CONTAINER_SSHKEY", i)]
               | none => [])
            syftRunScan e binary imageId destination env fs

/-- Parsed vulnerability record of the grype output schema. -/
structure GrypeVulnerability where
  id : String
  severity : String
  description : Option String

/-- One match of the grype output schema. -/
structure GrypeMatch where
  vulnerability : GrypeVulnerability

/-- Parsed grype output; the source field is called `matches`, which is a
reserved word in Lean, hence the primed name. -/
structure GrypeOutput where
  matches' : List GrypeMatch

/-- Field lookup in a JSON object. -/
def getField : List (String × Json) → String → Option Json
  | [], _ => none
  | (k, v) :: rest, key => if k = key then some v else getField rest key

/-- The enumerated severity values of `GrypeOutputSchema`
(part_002 lines 180-192). -/
def severityEnum : List String := ["High", "Medium", "Critical", "Low"]

/-- The zod severity field: an enumerated string, lower-cased on success. -/
def parseSeverity : Json → Except String String
  | Json.str s =>
    if s ∈ severityEnum then Except.ok (jsToLower s)
    else Except.error "severity: invalid enum value"
  | _ => Except.error "severity: invalid enum value"

/-- The zod optional description field: absent is fine, present must be a
string. -/
def parseDescription (fields : List (String × Json)) : Except String (Option String) :=
  match getField fields "description" with
  | none => Except.ok none
  | some (Json.str s) => Except.ok (some s)
  | some _ => Except.error "description: expected string"

/-- The zod vulnerability object: a required string id, a required enumerated
severity, an optional description. -/
def parseVulnerability : Json → Except String GrypeVulnerability
  | Json.obj fields =>
    match getField fields "id" with
    | some (Json.str vid) =>
      match (match getField fields "severity" with
             | some j => parseSeverity j
             | none => Except.error "vulnerability.severity: required") with
      | Except.error e => Except.error e
      | Except.ok sev =>
        match parseDescription fields with
        | Except.error e => Except.error e
        | Except.ok desc => Except.ok ⟨vid, sev, desc⟩
    | _ => Except.error "vulnerability.id: expected string"
  | _ => Except.error "vulnerability: expected object"

/-- The zod match object: a required vulnerability object. -/
def parseMatch : Json → Except String GrypeMatch
  | Json.obj fields =>
    (match getField fields "vulnerability" with
     | some j => parseVulnerability j
     | none => Except.error "match.vulnerability: required").map
      (fun v => ⟨v⟩)
  | _ => Except.error "match: expected object"

/-- Parse every element of the matches array; any element failure fails the
whole parse with no partial result. -/
def parseMatchList : List Json → Except String (List GrypeMatch)
  | [] => Except.ok []
  | j :: rest =>
    match parseMatch j with
    | Except.error e => Except.error e
    | Except.ok m =>
      match parseMatchList rest with
      | Except.error e => Except.error e
      | Except.ok ms => Except.ok (m :: ms)

/-- `GrypeOutputSchema.parse` applied to an already-JSON-parsed value. -/
def parseGrypeOutput : Json → Except String GrypeOutput
  | Json.obj fields =>
    (match getField fields "matches" with
     | some (Json.arr xs) => parseMatchList xs
     | some _ => Except.error "matches: expected array"
     | none => Except.error "matches: required").map
      (fun ms => ⟨ms⟩)
  | _ => Except.error "GrypeOutputSchema: expected object"

/-- Ambient state of one `GrypeService.analyse` call. `grypeContent` is what
the external binary writes to its `--file` target when the invocation
succeeds. -/
structure GrypeEnv where
  version : Option String
  path : Option String
  execOk : Bool
  grypeContent : Json

/-- Destination computed by `GrypeService.analyse` (part_001 lines 151-153):
same directory as the sbom, first dot-component of its basename, `.json`. -/
def grypeDestination (sbom : String) : String :=
  let dir := dirname sbom
  let name := (splitOnChar '.' (basename sbom)).headD ""
  pathJoin [dir, name ++ ".json"]

/-- `GrypeService.analyse` (part_001 lines 143-164): installed gate, sbom
existence gate, cache gate (read + schema-parse on a hit), otherwise exec the
binary with `--file=<destination>` and parse what it wrote. -/
def grypeAnalyse (e : GrypeEnv) (sbom : String) (fs : FS) :
    Except String GrypeOutput × FS × Trace :=
  if !(truthy e.version && truthy e.path) then
    (Except.error "cannot analyse image without syft binary installed", fs, Trace.empty)
  else
    let binary := e.path.getD ""
    if !(fs.existsSync sbom) then
      (Except.error "cannot analyse image without sbom file", fs, Trace.empty)
    else
      let destination := grypeDestination sbom
      match fs.read destination with
      | some j => (parseGrypeOutput j, fs, Trace.empty)
      | none =>
        let call : ExecCall :=
          ⟨binary, ["sbom:" ++ sbom, "--output=json", "--file=" ++ destination], []⟩
        if e.execOk then
          let fs1 := fs.write destination e.grypeContent
          (parseGrypeOutput e.grypeContent, fs1,
           ⟨[call], [(destination, e.grypeContent)], []⟩)
        else
          (Except.error "exec failed", fs, ⟨[call], [], []⟩)

/-- One release as returned by the upstream list-releases API. -/
structure GithubRelease where
  id : Int
  name : Option String
  tag_name : String
  prerelease : Bool

/-- Release metadata produced by `listReleases` (quick-pick items). -/
structure GithubReleaseMetadata where
  label : String
  tag : String
  id : Int

/-- The mapping applied to each kept release in `listReleases`. -/
def toReleaseMetadata (r : GithubRelease) : GithubReleaseMetadata :=
  ⟨r.name.getD r.tag_name, r.tag_name, r.id⟩

/-- The default value of the `limits` parameter of `listReleases`. -/
def defaultReleaseLimit : Nat := 10

/-- `AnchoreCliService.listReleases` (part_001 lines 321-341): filter out
pre-releases, truncate to `limits` when longer, map to metadata. -/
def listReleases (data : List GithubRelease) (limits : Nat) :
    List GithubReleaseMetadata :=
  let filtered := data.filter (fun r => !r.prerelease)
  let truncated := if limits < filtered.length then filtered.take limits else filtered
  truncated.map toReleaseMetadata

/-- `AnchoreCliService.getAssetName` (part_001 lines 414-454), with the
ambient node `platform` and `arch` made explicit parameters. -/
def getAssetName (tool version platform arch : String) : String :=
  let os :=
    if platform = "win32" then "windows"
    else if platform = "darwin" then "darwin"
    else "linux"
  let extension := if platform = "win32" then "zip" else "tar.gz"
  let architecture :=
    if arch = "x64" then "amd64"
    else if arch = "arm64" then "arm64"
    else if arch = "ppc64" then "ppc64le"
    else if arch = "s390x" then "s390x"
    else arch
  tool ++ "_" ++ version ++ "_" ++ os ++ "_" ++ architecture ++ "." ++ extension

/-- Spec 4.1 OS-name mapping, written from the specification's words for the
refinement statement of the asset namer. -/
def specOsName (platform : String) : String :=
  if platform = "win32" then "windows"
  else if platform = "darwin" then "darwin"
  else "linux"

/-- Spec 4.1 extension mapping, written from the specification's words. -/
def specExtension (platform : String) : String :=
  if platform = "win32" then "zip" else "tar.gz"

/-- Spec 4.1 architecture mapping, written from the specification's words;
unknown architectures pass through unchanged. -/
def specArchName (arch : String) : String :=
  if arch = "x64" then "amd64"
  else if arch = "arm64" then "arm64"
  else if arch = "ppc64" then "ppc64le"
  else if arch = "s390x" then "s390x"
  else arch

/-- Ambient state of one `AnchoreCliService.init` call: conventional storage
layout, whether a binary already sits at the conventional path, and the
stdout of the `--version` probe (`none` when the probe execution throws). -/
structure InitEnv where
  storagePath : String
  toolId : String
  isWindows : Bool
  binaryExists : Bool
  probe : Option String

/-- `AnchoreCliService.binaryPath`: the conventional storage path
`storagePath/toolId/toolId[.exe]` (part_001 lines 231-244). -/
def binaryPath (e : InitEnv) : String :=
  pathJoin [e.storagePath, e.toolId,
    if e.isWindows then e.toolId ++ ".exe" else e.toolId]

/-- `AnchoreCliService.getInstalledVersion` (part_001 lines 250-257): exec the
binary with `--version` and parse the second whitespace token of stdout. -/
def getInstalledVersion (e : InitEnv) : Except String String :=
  match e.probe with
  | none => Except.error "exec failed"
  | some stdout => Except.ok (parseVersionOutput stdout)

/-- What `createCliTool` receives from `init`. -/
structure CliToolRegistration where
  name : String
  version : Option String
  path : Option String

/-- `AnchoreCliService.init` (part_001 lines 259-286): probe the version when
a binary exists, swallow a probe failure (version stays undefined), then
register the tool with `path` only when the version is truthy. Returns the
registration together with the probe exec calls made. -/
def initTool (e : InitEnv) : CliToolRegistration × List ExecCall :=
  let version : Option String :=
    if e.binaryExists then
      match getInstalledVersion e with
      | Except.ok v => some v
      | Except.error _ => none
    else none
  ({ name := e.toolId
     version := version
     path := if truthy version then some (binaryPath e) else none },
   if e.binaryExists then [⟨binaryPath e, ["--version"], []⟩] else [])

/-- One release asset as returned by the upstream list-assets API. -/
structure GithubAsset where
  id : Int
  name : String

/-- Network operations of the install flow. -/
inductive NetworkCall where
  | listReleaseAssets : Int → NetworkCall
  | getReleaseAsset : Int → NetworkCall

/-- Observable side effects of the install flow: network calls, file writes,
and deletion attempts (path together with whether the deletion succeeded). -/
structure InstallTrace where
  network : List NetworkCall
  writes : List (String × Json)
  rmAttempts : List (String × Bool)

/-- Ambient state of the install flow: conventional layout, host platform,
the asset list the upstream returns, the downloaded bytes, and the outcomes
of the extraction library call, the chmod, and the archive deletion. -/
structure InstallEnv where
  storagePath : String
  toolId : String
  isWindows : Bool
  platform : String
  arch : String
  assets : List GithubAsset
  archiveData : Json
  extractLibOk : Bool
  chmodOk : Bool
  rmOk : Bool

/-- `AnchoreCliService.storageDir`: `storagePath/toolId`. -/
def storageDir (e : InstallEnv) : String := pathJoin [e.storagePath, e.toolId]

/-- `AnchoreCliService.download` (part_001 lines 363-389): list the release
assets, look up the asset named by `getAssetName`, fetch it and write it into
the tool-specific directory, returning the archive path. -/
def download (e : InstallEnv) (release : GithubReleaseMetadata) :
    Except String String × InstallTrace :=
  let assetName := getAssetName e.toolId (jsSubstringFrom release.tag 1) e.platform e.arch
  match e.assets.find? (fun a => assetName == a.name) with
  | none =>
    (Except.error ("asset " ++ assetName ++ " not found"),
     ⟨[NetworkCall.listReleaseAssets release.id], [], []⟩)
  | some asset =>
    let destination := pathJoin [storageDir e, asset.name]
    (Except.ok destination,
     ⟨[NetworkCall.listReleaseAssets release.id, NetworkCall.getReleaseAsset asset.id],
      [(destination, e.archiveData)], []⟩)

/-- Tail of `AnchoreCliService.extract` after the archive has been unpacked:
the binary is expected at the conventional name inside `destDir`, chmod 755 on
non-Windows targets only. -/
def extractFinish (e : InstallEnv) (destDir : String) : Except String String :=
  let binaryName := if e.isWindows then e.toolId ++ ".exe" else e.toolId
  let binPath := pathJoin [destDir, binaryName]
  if e.isWindows then Except.ok binPath
  else if e.chmodOk then Except.ok binPath
  else Except.error "chmod failed"

/-- `AnchoreCliService.extract` (part_001 lines 391-412): dispatch on the
archive extension, unsupported formats fail. -/
def extract (e : InstallEnv) (archivePath destDir : String) : Except String String :=
  if jsEndsWith archivePath ".zip" then
    if e.extractLibOk then extractFinish e destDir
    else Except.error "zip extraction failed"
  else if jsEndsWith archivePath ".tar.gz" then
    if e.extractLibOk then extractFinish e destDir
    else Except.error "tar extraction failed"
  else Except.error ("Unsupported archive format: " ++ archivePath)

/-- Version and path recorded by `cliTool.updateVersion` after an install. -/
structure CliUpdate where
  version : String
  path : String

/-- The `doInstall` closure registered by `init` (part_001 lines 294-312):
illegal-state gate when nothing was selected, download, then
try-extract-finally-delete with the deletion failure swallowed. -/
def doInstall (e : InstallEnv) (selected : Option GithubReleaseMetadata) :
    Except String CliUpdate × InstallTrace :=
  match selected with
  | none => (Except.error "No version selected", ⟨[], [], []⟩)
  | some sel =>
    match download e sel with
    | (Except.error msg, tr) => (Except.error msg, tr)
    | (Except.ok assetPath, tr) =>
      let res := extract e assetPath (storageDir e)
      let tr1 : InstallTrace :=
        { tr with rmAttempts := tr.rmAttempts ++ [(assetPath, e.rmOk)] }
      match res with
      | Except.ok binPath => (Except.ok ⟨jsSubstringFrom sel.tag 1, binPath⟩, tr1)
      | Except.error msg => (Except.error msg, tr1)

/-- Stripping behaviour of the sanitizer on an explicit "sha256:" prefix. -/
theorem sanitizeImageId_strip (rest : String) :
    sanitizeImageId ("sha256:" ++ rest) = rest := by
  have hpre : jsStartsWith ("sha256:" ++ rest) "sha256:" = true := by
    simp [jsStartsWith, String.data_append, List.isPrefixOf_iff_prefix]
  simp only [sanitizeImageId, hpre, if_true, jsSubstringFrom, String.data_append]
  have h7 : ("sha256:".data).length = 7 := by decide
  rw [← h7, List.drop_left]

/-- Unfolding of a four-segment path join. -/
theorem pathJoin_four (a b c d : String) :
    pathJoin [a, b, c, d] = a ++ "/" ++ b ++ "/" ++ c ++ "/" ++ d := by
  simp [pathJoin, String.intercalate, String.intercalate.go, String.append_assoc]

/-- Claim C2 (amended): SyftService.analyse sanitizes the image id by
stripping a leading "sha256:" prefix (a no-op when the prefix is absent) and
computes the SBOM destination as
storagePath/providerId/connectionName/sanitizedId.jsonpow — the suffix in the
source is ".jsonpow", not ".json". -/
theorem syft_sanitize_and_destination_amended :
    (∀ rest : String, sanitizeImageId ("sha256:" ++ rest) = rest)
  ∧ (∀ s : String, jsStartsWith s "sha256:" = false → sanitizeImageId s = s)
  ∧ (∀ (sp : String) (conn : ProviderContainerConnection) (imageId : String),
      syftDestination sp conn imageId
        = sp ++ "/" ++ conn.providerId ++ "/" ++ conn.connectionName ++ "/"
            ++ (sanitizeImageId imageId ++ ".jsonpow")) := by
  refine ⟨sanitizeImageId_strip, ?_, ?_⟩
  · intro s h
    simp [sanitizeImageId, h]
  · intro sp conn imageId
    exact pathJoin_four sp conn.providerId conn.connectionName
      (sanitizeImageId imageId ++ ".jsonpow")

/-- Claim C2: witness — the spec scenario instances, applied through the
amended theorem. -/
theorem syft_sanitize_and_destination_amended_witness :
    sanitizeImageId ("sha256:" ++ "abcd1234") = "abcd1234"
  ∧ sanitizeImageId "abcd1234" = "abcd1234"
  ∧ syftDestination "st" ⟨"prov", "podman", "pm"⟩ "sha256:abcd1234"
      = "st" ++ "/" ++ "prov" ++ "/" ++ "pm" ++ "/"
          ++ (sanitizeImageId "sha256:abcd1234" ++ ".jsonpow") :=
  ⟨syft_sanitize_and_destination_amended.1 "abcd1234",
   syft_sanitize_and_destination_amended.2.1 "abcd1234" (by decide),
   syft_sanitize_and_destination_amended.2.2 "st" ⟨"prov", "podman", "pm"⟩ "sha256:abcd1234"⟩

/-- Claim C2: counterexample — on a cache hit the analyse call returns the
destination with the ".jsonpow" suffix, which differs from the ".json" path
the claim states. -/
theorem syft_destination_not_json_counterexample :
    (syftAnalyse ⟨"st", some "1.0", some "bin/syft", none, true, true, Json.null⟩
        ⟨"prov", "podman", "pm"⟩ "sha256:abcd1234"
        ⟨[("st/prov/pm/abcd1234.jsonpow", Json.null)]⟩).1
      = Except.ok "st/prov/pm/abcd1234.jsonpow"
  ∧ syftDestination "st" ⟨"prov", "podman", "pm"⟩ "sha256:abcd1234"
      ≠ "st/prov/pm/abcd1234.json" :=
  ⟨rfl, by decide⟩

/-- Claim C4: the release list never contains a prerelease entry, never
exceeds the limit, and preserves the upstream order: it is the metadata image
of an order-preserving sublist of the upstream data; the default limit is 10. -/
theorem listReleases_correct (data : List GithubRelease) (limits : Nat) :
    ∃ sub : List GithubRelease,
      sub.Sublist data
      ∧ (∀ r ∈ sub, r.prerelease = false)
      ∧ sub.length ≤ limits
      ∧ listReleases data limits = sub.map toReleaseMetadata
      ∧ defaultReleaseLimit = 10 := by
  refine ⟨(data.filter (fun r => !r.prerelease)).take limits,
    ((data.filter _).take_sublist _).trans data.filter_sublist, ?_, ?_, ?_, rfl⟩
  · intro r hr
    have hmem := List.mem_filter.mp (List.mem_of_mem_take hr)
    simpa using hmem.2
  · exact List.length_take_le limits _
  · unfold listReleases
    by_cases h : limits < (data.filter (fun r => !r.prerelease)).length
    · simp [h]
    · simp [h, List.take_of_length_le (Nat.le_of_not_lt h)]

/-- Claim C4: witness at a three-release upstream list with one prerelease and
limit one. -/
theorem listReleases_correct_witness :
    ∃ sub : List GithubRelease,
      sub.Sublist [⟨1, none, "v1.0.1", false⟩, ⟨2, none, "v1.0.0-rc1", true⟩,
                   ⟨3, none, "v1.0.0", false⟩]
      ∧ (∀ r ∈ sub, r.prerelease = false)
      ∧ sub.length ≤ 1
      ∧ listReleases [⟨1, none, "v1.0.1", false⟩, ⟨2, none, "v1.0.0-rc1", true⟩,
                      ⟨3, none, "v1.0.0", false⟩] 1 = sub.map toReleaseMetadata
      ∧ defaultReleaseLimit = 10 :=
  listReleases_correct _ 1

/-- Claim C5: doInstall with no previously selected version fails immediately
with the illegal-state error "No version selected" and performs no network
call, no write and no deletion attempt. -/
theorem doInstall_no_selection (e : InstallEnv) :
    doInstall e none = (Except.error "No version selected", ⟨[], [], []⟩) := rfl

/-- Claim C5: witness at a concrete environment. -/
theorem doInstall_no_selection_witness :
    doInstall ⟨"st", "grype", false, "linux", "x64", [], Json.null, true, true, true⟩ none
      = (Except.error "No version selected", ⟨[], [], []⟩) :=
  doInstall_no_selection _

/-- Claim C9: the asset namer is total and deterministic, produces exactly the
tool_version_os_arch.ext pattern under the documented platform and
architecture mappings, and unmapped architectures pass through verbatim. -/
theorem getAssetName_correct :
    (∀ tool version platform arch : String,
        getAssetName tool version platform arch
          = tool ++ "_" ++ version ++ "_" ++ specOsName platform ++ "_"
              ++ specArchName arch ++ "." ++ specExtension platform)
  ∧ specOsName "win32" = "windows" ∧ specExtension "win32" = "zip"
  ∧ specOsName "darwin" = "darwin" ∧ specExtension "darwin" = "tar.gz"
  ∧ specOsName "linux" = "linux" ∧ specExtension "linux" = "tar.gz"
  ∧ (∀ platform : String, platform ≠ "win32" → platform ≠ "darwin" →
        specOsName platform = "linux" ∧ specExtension platform = "tar.gz")
  ∧ specArchName "x64" = "amd64" ∧ specArchName "arm64" = "arm64"
  ∧ specArchName "ppc64" = "ppc64le" ∧ specArchName "s390x" = "s390x"
  ∧ (∀ arch : String, arch ∉ (["x64", "arm64", "ppc64", "s390x"] : List String) →
        specArchName arch = arch) := by
  refine ⟨fun t v p a => rfl, rfl, rfl, rfl, rfl, rfl, rfl, ?_, rfl, rfl, rfl, rfl, ?_⟩
  · intro p h1 h2
    constructor <;> simp [specOsName, specExtension, h1, h2]
  · intro a h
    simp only [List.mem_cons, List.not_mem_nil, or_false, not_or] at h
    obtain ⟨h1, h2, h3, h4⟩ := h
    simp [specArchName, h1, h2, h3, h4]

/-- Claim C9: witness at an unmapped platform and architecture pair. -/
theorem getAssetName_correct_witness :
    getAssetName "syft" "1.41.2" "riscv" "riscv64"
      = "syft" ++ "_" ++ "1.41.2" ++ "_" ++ specOsName "riscv" ++ "_"
          ++ specArchName "riscv64" ++ "." ++ specExtension "riscv"
  ∧ specOsName "riscv" = "linux" ∧ specExtension "riscv" = "tar.gz"
  ∧ specArchName "riscv64" = "riscv64" := by
  obtain ⟨h1, -, -, -, -, -, -, h8, -, -, -, -, h13⟩ := getAssetName_correct
  exact ⟨h1 "syft" "1.41.2" "riscv" "riscv64",
         (h8 "riscv" (by decide) (by decide)).1,
         (h8 "riscv" (by decide) (by decide)).2,
         h13 "riscv64" (by decide)⟩

/-- Claim C10: when the connection type is not "podman" the analyse call fails
with the podman-only error for every filesystem (so no destination or cache
consultation matters) and with an empty trace (the process executor receives
zero calls). -/
theorem syft_non_podman_gate (e : SyftEnv) (conn : ProviderContainerConnection)
    (imageId : String) (fs : FS)
    (hv : truthy e.version = true) (hp : truthy e.path = true)
    (ht : conn.connectionType ≠ "podman") :
    syftAnalyse e conn imageId fs
      = (Except.error "extension only supported podman connection", fs, Trace.empty) := by
  simp [syftAnalyse, hv, hp, ht]

/-- Claim C10: witness — a "docker"-typed connection fails even though the
destination file is already present in the filesystem. -/
theorem syft_non_podman_gate_witness :
    syftAnalyse ⟨"st", some "1.0", some "bin/syft", none, true, true, Json.null⟩
        ⟨"prov", "docker", "pm"⟩ "sha256:abcd1234"
        ⟨[("st/prov/pm/abcd1234.jsonpow", Json.null)]⟩
      = (Except.error "extension only supported podman connection",
         ⟨[("st/prov/pm/abcd1234.jsonpow", Json.null)]⟩, Trace.empty) :=
  syft_non_podman_gate _ _ _ _ (by decide) (by decide) (by decide)

/-- Claim C1 (amended): on a cache miss with a successful invocation the SBOM
invoker writes the binary output only to destination ++ ".tmp" and then
renames the temporary onto the destination, never writing the destination
directly, while the vulnerability invoker uses no temporary: the binary
output goes directly to the destination file and no rename occurs. -/
theorem scan_write_discipline_amended
    (e : SyftEnv) (conn : ProviderContainerConnection) (imageId : String) (fs : FS)
    (c : PodmanConnection)
    (hv : truthy e.version = true) (hp : truthy e.path = true)
    (ht : conn.connectionType = "podman")
    (hmiss : fs.existsSync (syftDestination e.storagePath conn imageId) = false)
    (hc : e.podmanConn = some c) (hssh : jsStartsWith c.URI "ssh:" = true)
    (hexec : e.execOk = true)
    (ge : GrypeEnv) (sbom : String) (gfs : FS)
    (gv : truthy ge.version = true) (gp : truthy ge.path = true)
    (gsb : gfs.existsSync sbom = true)
    (gmiss : gfs.read (grypeDestination sbom) = none)
    (gexec : ge.execOk = true) :
    ((syftAnalyse e conn imageId fs).2.2.writes
        = [(syftDestination e.storagePath conn imageId ++ ".tmp", e.scanContent)]
     ∧ (syftAnalyse e conn imageId fs).2.2.renames
        = [(syftDestination e.storagePath conn imageId ++ ".tmp",
            syftDestination e.storagePath conn imageId)]
     ∧ (syftAnalyse e conn imageId fs).1
        = Except.ok (syftDestination e.storagePath conn imageId))
  ∧ ((grypeAnalyse ge sbom gfs).2.2.writes
        = [(grypeDestination sbom, ge.grypeContent)]
     ∧ (grypeAnalyse ge sbom gfs).2.2.renames = []) := by
  constructor
  · refine ⟨?_, ?_, ?_⟩ <;>
      simp [syftAnalyse, hv, hp, ht, hmiss, hc, hssh, syftRunScan, hexec]
  · constructor <;> simp [grypeAnalyse, gv, gp, gsb, gmiss, gexec]

/-- Claim C1: witness — a concrete cache-miss run of each invoker, applied
through the amended theorem. -/
theorem scan_write_discipline_amended_witness :
    ((syftAnalyse ⟨"st", some "1.0", some "bin/syft", some ⟨"ssh://u@h", some "key"⟩,
          false, true, Json.null⟩
        ⟨"prov", "podman", "pm"⟩ "sha256:abcd" ⟨[]⟩).2.2.writes
        = [(syftDestination "st" ⟨"prov", "podman", "pm"⟩ "sha256:abcd" ++ ".tmp", Json.null)]
     ∧ (syftAnalyse ⟨"st", some "1.0", some "bin/syft", some ⟨"ssh://u@h", some "key"⟩,
          false, true, Json.null⟩
        ⟨"prov", "podman", "pm"⟩ "sha256:abcd" ⟨[]⟩).2.2.renames
        = [(syftDestination "st" ⟨"prov", "podman", "pm"⟩ "sha256:abcd" ++ ".tmp",
            syftDestination "st" ⟨"prov", "podman", "pm"⟩ "sha256:abcd")]
     ∧ (syftAnalyse ⟨"st", some "1.0", some "bin/syft", some ⟨"ssh://u@h", some "key"⟩,
          false, true, Json.null⟩
        ⟨"prov", "podman", "pm"⟩ "sha256:abcd" ⟨[]⟩).1
        = Except.ok (syftDestination "st" ⟨"prov", "podman", "pm"⟩ "sha256:abcd"))
  ∧ ((grypeAnalyse ⟨some "0.1.0", some "bin/grype", true, Json.obj [("matches", Json.arr [])]⟩
        "st/img.jsonpow" ⟨[("st/img.jsonpow", Json.null)]⟩).2.2.writes
        = [(grypeDestination "st/img.jsonpow", Json.obj [("matches", Json.arr [])])]
     ∧ (grypeAnalyse ⟨some "0.1.0", some "bin/grype", true, Json.obj [("matches", Json.arr [])]⟩
        "st/img.jsonpow" ⟨[("st/img.jsonpow", Json.null)]⟩).2.2.renames = []) :=
  scan_write_discipline_amended
    ⟨"st", some "1.0", some "bin/syft", some ⟨"ssh://u@h", some "key"⟩, false, true, Json.null⟩
    ⟨"prov", "podman", "pm"⟩ "sha256:abcd" ⟨[]⟩ ⟨"ssh://u@h", some "key"⟩
    (by decide) (by decide) rfl (by decide) rfl (by decide) rfl
    ⟨some "0.1.0", some "bin/grype", true, Json.obj [("matches", Json.arr [])]⟩
    "st/img.jsonpow" ⟨[("st/img.jsonpow", Json.null)]⟩
    (by decide) (by decide) (by decide) rfl rfl

/-- Claim C1: counterexample — a concrete cache-miss vulnerability invocation
writes the destination file directly (the single observable write targets the
destination itself, which is not the temporary path) and performs no rename,
refuting the tmp-then-rename invariant as stated for GrypeService.analyse. -/
theorem grype_direct_write_counterexample :
    (grypeAnalyse ⟨some "0.109.0", some "bin/grype", true, Json.obj [("matches", Json.arr [])]⟩
        "a/scan.jsonpow" ⟨[("a/scan.jsonpow", Json.null)]⟩).2.2
      = ⟨[⟨"bin/grype", ["sbom:a/scan.jsonpow", "--output=json", "--file=a/scan.json"], []⟩],
         [("a/scan.json", Json.obj [("matches", Json.arr [])])], []⟩
  ∧ FS.read ⟨[("a/scan.jsonpow", Json.null)]⟩ "a/scan.json" = none
  ∧ grypeDestination "a/scan.jsonpow" = "a/scan.json"
  ∧ "a/scan.json" ≠ "a/scan.json" ++ ".tmp" :=
  ⟨rfl, rfl, rfl, by decide⟩

/-- Claim C3: with the destination file already present neither invoker calls
the process executor (the trace is empty), the filesystem is unchanged, the
SBOM invoker returns the existing path, and the vulnerability invoker returns
the parse of the existing content. -/
theorem cache_hit_no_invocation
    (e : SyftEnv) (conn : ProviderContainerConnection) (imageId : String) (fs : FS)
    (hv : truthy e.version = true) (hp : truthy e.path = true)
    (ht : conn.connectionType = "podman")
    (hhit : fs.existsSync (syftDestination e.storagePath conn imageId) = true)
    (ge : GrypeEnv) (sbom : String) (gfs : FS) (j : Json)
    (gv : truthy ge.version = true) (gp : truthy ge.path = true)
    (gsb : gfs.existsSync sbom = true)
    (ghit : gfs.read (grypeDestination sbom) = some j) :
    syftAnalyse e conn imageId fs
      = (Except.ok (syftDestination e.storagePath conn imageId), fs, Trace.empty)
  ∧ grypeAnalyse ge sbom gfs = (parseGrypeOutput j, gfs, Trace.empty) := by
  constructor
  · simp [syftAnalyse, hv, hp, ht, hhit]
  · simp [grypeAnalyse, gv, gp, gsb, ghit]

/-- Claim C3: witness — concrete cache hits for both invokers. -/
theorem cache_hit_no_invocation_witness :
    syftAnalyse ⟨"st", some "1.0", some "bin/syft", none, true, true, Json.null⟩
        ⟨"prov", "podman", "pm"⟩ "sha256:abcd"
        ⟨[("st/prov/pm/abcd.jsonpow", Json.null)]⟩
      = (Except.ok (syftDestination "st" ⟨"prov", "podman", "pm"⟩ "sha256:abcd"),
         ⟨[("st/prov/pm/abcd.jsonpow", Json.null)]⟩, Trace.empty)
  ∧ grypeAnalyse ⟨some "0.1.0", some "bin/grype", true, Json.null⟩ "st/img.jsonpow"
        ⟨[("st/img.jsonpow", Json.null), ("st/img.json", Json.obj [("matches", Json.arr [])])]⟩
      = (parseGrypeOutput (Json.obj [("matches", Json.arr [])]),
         ⟨[("st/img.jsonpow", Json.null), ("st/img.json", Json.obj [("matches", Json.arr [])])]⟩,
         Trace.empty) :=
  cache_hit_no_invocation
    ⟨"st", some "1.0", some "bin/syft", none, true, true, Json.null⟩
    ⟨"prov", "podman", "pm"⟩ "sha256:abcd" ⟨[("st/prov/pm/abcd.jsonpow", Json.null)]⟩
    (by decide) (by decide) rfl (by decide)
    ⟨some "0.1.0", some "bin/grype", true, Json.null⟩ "st/img.jsonpow"
    ⟨[("st/img.jsonpow", Json.null), ("st/img.json", Json.obj [("matches", Json.arr [])])]⟩
    (Json.obj [("matches", Json.arr [])])
    (by decide) (by decide) (by decide) rfl

/-- Claim C7: during init, when a binary exists at the conventional path its
version is probed by executing it with "--version" and taking the second
whitespace-delimited token of stdout; when the probe execution fails, init
still completes and registers the tool with no version and no path. -/
theorem init_probe_correct (e : InitEnv) :
    (∀ (stdout nm ver : String) (rest : List String),
        e.binaryExists = true → e.probe = some stdout →
        wsTokens (jsTrim stdout) = nm :: ver :: rest →
        (initTool e).1.version = some ver
        ∧ (initTool e).2 = [⟨binaryPath e, ["--version"], []⟩])
  ∧ (e.probe = none → (initTool e).1.version = none ∧ (initTool e).1.path = none) := by
  constructor
  · intro stdout nm ver rest hb hs htok
    constructor
    · simp [initTool, hb, getInstalledVersion, hs, parseVersionOutput, htok]
    · simp [initTool, hb]
  · intro hn
    cases hb : e.binaryExists
    · simp [initTool, hb, truthy]
    · simp [initTool, hb, getInstalledVersion, hn, truthy]

/-- Claim C7: witness — a conforming probe output yields its second token as
the version, and a failed probe yields a registration with no version and no
path. -/
theorem init_probe_correct_witness :
    (initTool ⟨"st", "grype", false, true, some "grype 0.109.0"⟩).1.version
      = some "0.109.0"
  ∧ (initTool ⟨"st", "grype", false, true, none⟩).1.version = none
  ∧ (initTool ⟨"st", "grype", false, true, none⟩).1.path = none :=
  ⟨((init_probe_correct ⟨"st", "grype", false, true, some "grype 0.109.0"⟩).1
      "grype 0.109.0" "grype" "0.109.0" [] rfl rfl (by decide)).1,
   ((init_probe_correct ⟨"st", "grype", false, true, none⟩).2 rfl).1,
   ((init_probe_correct ⟨"st", "grype", false, true, none⟩).2 rfl).2⟩

/-- The download step never reads the deletion outcome. -/
theorem download_rmOk_irrel (e : InstallEnv) (b : Bool) (sel : GithubReleaseMetadata) :
    download { e with rmOk := b } sel = download e sel := rfl

/-- The extraction step never reads the deletion outcome. -/
theorem extract_rmOk_irrel (e : InstallEnv) (b : Bool) (p d : String) :
    extract { e with rmOk := b } p d = extract e p d := rfl

/-- The storage directory never reads the deletion outcome. -/
theorem storageDir_rmOk_irrel (e : InstallEnv) (b : Bool) :
    storageDir { e with rmOk := b } = storageDir e := rfl

/-- Claim C8: after a successful download the archive is deleted best-effort:
the deletion attempt on the archive path is recorded whatever the extraction
outcome, and the install result does not depend on whether the deletion
succeeds (a deletion failure is swallowed). -/
theorem doInstall_archive_cleanup (e : InstallEnv) (sel : GithubReleaseMetadata)
    (assetPath : String) (tr : InstallTrace)
    (h : download e sel = (Except.ok assetPath, tr)) :
    (doInstall e (some sel)).2.rmAttempts = tr.rmAttempts ++ [(assetPath, e.rmOk)]
  ∧ (doInstall { e with rmOk := true } (some sel)).1
      = (doInstall { e with rmOk := false } (some sel)).1 := by
  constructor
  · simp only [doInstall, h]
    cases hres : extract e assetPath (storageDir e) <;> simp [hres]
  · have h1 : download { e with rmOk := true } sel = (Except.ok assetPath, tr) := by
      rw [download_rmOk_irrel]; exact h
    have h2 : download { e with rmOk := false } sel = (Except.ok assetPath, tr) := by
      rw [download_rmOk_irrel]; exact h
    simp only [doInstall, h1, h2, extract_rmOk_irrel, storageDir_rmOk_irrel]
    cases hres : extract e assetPath (storageDir e) <;> simp [hres]

/-- Claim C8: witness — a concrete install whose extraction fails still
records the deletion attempt on the downloaded archive. -/
theorem doInstall_archive_cleanup_witness :
    (doInstall ⟨"st", "grype", false, "linux", "x64",
        [⟨7, "grype_0.1.0_linux_amd64.tar.gz"⟩], Json.null, false, true, true⟩
      (some ⟨"v0.1.0", "v0.1.0", 42⟩)).2.rmAttempts
      = [] ++ [("st/grype/grype_0.1.0_linux_amd64.tar.gz", true)]
  ∧ (doInstall ⟨"st", "grype", false, "linux", "x64",
        [⟨7, "grype_0.1.0_linux_amd64.tar.gz"⟩], Json.null, false, true, true⟩
      (some ⟨"v0.1.0", "v0.1.0", 42⟩)).1
      = (doInstall ⟨"st", "grype", false, "linux", "x64",
        [⟨7, "grype_0.1.0_linux_amd64.tar.gz"⟩], Json.null, false, true, false⟩
      (some ⟨"v0.1.0", "v0.1.0", 42⟩)).1 :=
  doInstall_archive_cleanup
    ⟨"st", "grype", false, "linux", "x64",
      [⟨7, "grype_0.1.0_linux_amd64.tar.gz"⟩], Json.null, false, true, true⟩
    ⟨"v0.1.0", "v0.1.0", 42⟩
    "st/grype/grype_0.1.0_linux_amd64.tar.gz"
    ⟨[NetworkCall.listReleaseAssets 42, NetworkCall.getReleaseAsset 7],
     [("st/grype/grype_0.1.0_linux_amd64.tar.gz", Json.null)], []⟩
    rfl

/-- A vulnerability object with no "id" field fails to parse. -/
theorem parseVulnerability_no_id (vfields : List (String × Json))
    (h : getField vfields "id" = none) :
    parseVulnerability (Json.obj vfields)
      = Except.error "vulnerability.id: expected string" := by
  simp [parseVulnerability, h]

/-- A failing element anywhere in the array fails the whole match-list parse. -/
theorem parseMatchList_error_of_elem (pre post : List Json) (x : Json) (e : String)
    (hx : parseMatch x = Except.error e) :
    ∃ err, parseMatchList (pre ++ x :: post) = Except.error err := by
  induction pre with
  | nil => exact ⟨e, by simp [parseMatchList, hx]⟩
  | cons y ys ih =>
    obtain ⟨err, herr⟩ := ih
    cases hy : parseMatch y with
    | error e2 => exact ⟨e2, by simp [parseMatchList, hy]⟩
    | ok m => exact ⟨err, by simp [parseMatchList, hy, herr]⟩

/-- A successfully parsed severity is a lowercase member of the enumeration. -/
theorem parseSeverity_lower (j : Json) (s : String)
    (h : parseSeverity j = Except.ok s) :
    s ∈ (["high", "medium", "critical", "low"] : List String) := by
  cases j with
  | str t =>
    by_cases ht : t ∈ severityEnum
    · have hs : s = jsToLower t := by
        simp [parseSeverity, ht] at h
        exact h.symm
      subst hs
      simp only [severityEnum, List.mem_cons, List.not_mem_nil, or_false] at ht
      rcases ht with rfl | rfl | rfl | rfl <;> decide
    · simp [parseSeverity, ht] at h
  | num n => simp [parseSeverity] at h
  | bool b => simp [parseSeverity] at h
  | null => simp [parseSeverity] at h
  | arr xs => simp [parseSeverity] at h
  | obj fields => simp [parseSeverity] at h

/-- A successfully parsed vulnerability carries a lowercase enumerated
severity. -/
theorem parseVulnerability_severity (j : Json) (v : GrypeVulnerability)
    (h : parseVulnerability j = Except.ok v) :
    v.severity ∈ (["high", "medium", "critical", "low"] : List String) := by
  cases j with
  | obj fields =>
    simp only [parseVulnerability] at h
    split at h
    case h_1 vid heq =>
      split at h
      case h_1 e2 heq2 => simp at h
      case h_2 sev heq2 =>
        split at h
        case h_1 e3 heq3 => simp at h
        case h_2 desc heq3 =>
          simp only [Except.ok.injEq] at h
          subst h
          revert heq2
          cases hse : getField fields "severity" with
          | none => intro heq2; simp at heq2
          | some js => intro heq2; exact parseSeverity_lower js sev heq2
    case h_2 heq => simp at h
  | str s => simp [parseVulnerability] at h
  | num n => simp [parseVulnerability] at h
  | bool b => simp [parseVulnerability] at h
  | null => simp [parseVulnerability] at h
  | arr xs => simp [parseVulnerability] at h

/-- A successfully parsed match carries a lowercase enumerated severity. -/
theorem parseMatch_severity (j : Json) (m : GrypeMatch)
    (h : parseMatch j = Except.ok m) :
    m.vulnerability.severity ∈ (["high", "medium", "critical", "low"] : List String) := by
  cases j with
  | obj fields =>
    simp only [parseMatch] at h
    cases hf : getField fields "vulnerability" with
    | none => rw [hf] at h; simp [Except.map] at h
    | some jv =>
      rw [hf] at h
      cases hv : parseVulnerability jv with
      | error e => simp [hv, Except.map] at h
      | ok v =>
        simp only [hv, Except.map, Except.ok.injEq] at h
        subst h
        exact parseVulnerability_severity jv v hv
  | str s => simp [parseMatch] at h
  | num n => simp [parseMatch] at h
  | bool b => simp [parseMatch] at h
  | null => simp [parseMatch] at h
  | arr xs => simp [parseMatch] at h

/-- Every match of a successfully parsed array carries a lowercase
enumerated severity. -/
theorem parseMatchList_severity (xs : List Json) (ms : List GrypeMatch)
    (h : parseMatchList xs = Except.ok ms) :
    ∀ m ∈ ms, m.vulnerability.severity
      ∈ (["high", "medium", "critical", "low"] : List String) := by
  induction xs generalizing ms with
  | nil =>
    simp only [parseMatchList, Except.ok.injEq] at h
    subst h
    simp
  | cons x rest ih =>
    simp only [parseMatchList] at h
    cases hx : parseMatch x with
    | error e => rw [hx] at h; simp at h
    | ok m0 =>
      rw [hx] at h
      cases hr : parseMatchList rest with
      | error e => rw [hr] at h; simp at h
      | ok ms0 =>
        rw [hr] at h
        simp only [Except.ok.injEq] at h
        subst h
        intro m hm
        rcases List.mem_cons.mp hm with rfl | hm2
        · exact parseMatch_severity x m hx
        · exact ih ms0 hr m hm2

/-- Claim C6: a matches entry whose vulnerability lacks the id string makes
the whole parse fail with a schema error (no partial result is produced); a
successful parse has every severity drawn from the enumerated set normalized
to lowercase; the description field is optional (concrete instances with and
without it both parse). -/
theorem grype_schema_correct :
    (∀ (vfields : List (String × Json)) (pre post : List Json),
        getField vfields "id" = none →
        ∃ err,
          parseGrypeOutput (Json.obj [("matches",
              Json.arr (pre ++ Json.obj [("vulnerability", Json.obj vfields)] :: post))])
            = Except.error err)
  ∧ (∀ (j : Json) (out : GrypeOutput), parseGrypeOutput j = Except.ok out →
        ∀ m ∈ out.matches', m.vulnerability.severity
          ∈ (["high", "medium", "critical", "low"] : List String))
  ∧ parseGrypeOutput (Json.obj [("matches", Json.arr [Json.obj [("vulnerability",
        Json.obj [("id", Json.str "CVE-2024-0001"), ("severity", Json.str "High"),
                  ("description", Json.str "a heap overflow")])]])])
      = Except.ok ⟨[⟨⟨"CVE-2024-0001", "high", some "a heap overflow"⟩⟩]⟩
  ∧ parseGrypeOutput (Json.obj [("matches", Json.arr [Json.obj [("vulnerability",
        Json.obj [("id", Json.str "CVE-2024-0001"), ("severity", Json.str "Low")])]])])
      = Except.ok ⟨[⟨⟨"CVE-2024-0001", "low", none⟩⟩]⟩ := by
  refine ⟨?_, ?_, rfl, rfl⟩
  · intro vfields pre post hid
    have hx : parseMatch (Json.obj [("vulnerability", Json.obj vfields)])
        = Except.error "vulnerability.id: expected string" := by
      simp [parseMatch, getField, parseVulnerability_no_id vfields hid, Except.map]
    obtain ⟨err, herr⟩ := parseMatchList_error_of_elem pre post _ _ hx
    exact ⟨err, by simp [parseGrypeOutput, getField, herr, Except.map]⟩
  · intro j out h
    cases j with
    | obj fields =>
      simp only [parseGrypeOutput] at h
      cases hm : getField fields "matches" with
      | none => rw [hm] at h; simp [Except.map] at h
      | some jm =>
        rw [hm] at h
        cases jm with
        | arr xs =>
          cases hl : parseMatchList xs with
          | error e => simp [hl, Except.map] at h
          | ok ms =>
            simp only [hl, Except.map, Except.ok.injEq] at h
            subst h
            exact parseMatchList_severity xs ms hl
        | str s => simp [Except.map] at h
        | num n => simp [Except.map] at h
        | bool b => simp [Except.map] at h
        | null => simp [Except.map] at h
        | obj fs2 => simp [Except.map] at h
    | str s => simp [parseGrypeOutput] at h
    | num n => simp [parseGrypeOutput] at h
    | bool b => simp [parseGrypeOutput] at h
    | null => simp [parseGrypeOutput] at h
    | arr xs => simp [parseGrypeOutput] at h

/-- Claim C6: witness — a concrete matches entry lacking the id fails to
parse, and the severities of a concretely parsed output are in the lowercase
enumeration. -/
theorem grype_schema_correct_witness :
    (∃ err, parseGrypeOutput (Json.obj [("matches",
        Json.arr [Json.obj [("vulnerability",
          Json.obj [("severity", Json.str "High")])]])]) = Except.error err)
  ∧ (∀ m ∈ (GrypeOutput.mk [⟨⟨"CVE-2024-0001", "low", none⟩⟩]).matches',
        m.vulnerability.severity ∈ (["high", "medium", "critical", "low"] : List String)) :=
  ⟨grype_schema_correct.1 [("severity", Json.str "High")] [] [] rfl,
   grype_schema_correct.2.1 _ _ grype_schema_correct.2.2.2⟩

end PdGrypeExt
